import Mathlib

/-!
Verification of the modellink-api adapter tools against their specification.

The repository is a set of Python "tool" classes (`src/tools/*.py`) that build
JSON request bodies from caller parameters, send them to an upstream API, and
aggregate streamed Server-Sent-Events responses into one normalized result
envelope.  This file gives a shallow embedding of the parts of that code the
claims are about:

* a `Val` type standing for Python/JSON values (None, bool, int, str, list,
  dict), with Python truthiness, `dict.get`, and the `or` operator;
* the chat-delta streaming aggregator
  (`OpenAIChatTool._stream_chat_completion` in `openai_chat.py`;
  `OpenAICompletionsTool._stream_chat_completion` in `openai_completions.py`
  is line-for-line identical, so one embedding serves both);
* the typed-event streaming aggregator
  (`OpenAIResponsesTool._stream_responses` in `openai_responses.py`);
* the chat request-body builder (`OpenAIChatTool._invoke`);
* the sora video request builder (`SoraVideoTool._invoke`);
* the banana image emission pipeline (`BananaGenTool._invoke`).
-/

set_option autoImplicit false

namespace ModelLink

/-- Python/JSON values as they appear in the tools: `None`, booleans, integers,
strings, lists and dicts.  Dicts are association lists in insertion order with
unique keys (as produced by `json.loads` and by the dict literals in the
source).  Floats do not occur in any modelled code path. -/
inductive Val where
  | vnull
  | vbool (b : Bool)
  | vint (n : Int)
  | vstr (s : String)
  | vlist (xs : List Val)
  | vobj (fields : List (String × Val))

namespace Val

/-- Python `v is None`. -/
def isNone : Val → Bool
  | vnull => true
  | _ => false

/-- Python `v == s` for a string literal `s`: true exactly when `v` is that
string (equality between a string and any other Python type is `False`). -/
def eqStr (v : Val) (s : String) : Bool :=
  match v with
  | vstr t => t == s
  | _ => false

/-- Python `v in ss` for a list of string literals: membership holds only for
an equal string (other types simply compare unequal to every element). -/
def inStrList (v : Val) (ss : List String) : Bool :=
  match v with
  | vstr t => ss.contains t
  | _ => false

/-- Python truthiness (`bool(v)`): `None`, `False`, `0`, `""`, `[]` and
an empty dict are falsy, everything else is truthy. -/
def truthy : Val → Bool
  | vnull => false
  | vbool b => b
  | vint n => n != 0
  | vstr s => s != ""
  | vlist xs => !xs.isEmpty
  | vobj fs => !fs.isEmpty

/-- Python `d.get(k)` on a dict: the value at `k`, or `None` when absent.
The modelled code only calls `.get` on values that are dicts at runtime
(on a non-dict Python would raise `AttributeError`, which no modelled claim
exercises); we return `None` there as well. -/
def get (v : Val) (k : String) : Val :=
  match v with
  | vobj fs => match fs.lookup k with
    | some x => x
    | none => vnull
  | _ => vnull

/-- Python `d.get(k, default)`: the value at `k` (even when that value is
`None`), or `default` when the key is absent. -/
def getD (v : Val) (k : String) (d : Val) : Val :=
  match v with
  | vobj fs => match fs.lookup k with
    | some x => x
    | none => d
  | _ => d

end Val

/-- Python `a or b`: `a` when `a` is truthy, otherwise `b`. -/
def pyOr (a b : Val) : Val :=
  if a.truthy then a else b

mutual

/-- Python `json.dumps(v)` for the value shapes the tools produce (used in
`openai_chat.py` / `openai_completions.py` when a message content dict has no
text-bearing field).  String escaping of special characters is not modelled;
no modelled claim evaluates `jsonDumps` on a string containing them. -/
def jsonDumps : Val → String
  | .vnull => "null"
  | .vbool true => "true"
  | .vbool false => "false"
  | .vint n => toString n
  | .vstr s => "\"" ++ s ++ "\""
  | .vlist xs => "[" ++ jsonDumpsList xs ++ "]"
  | .vobj fs => "\x7b" ++ jsonDumpsFields fs ++ "\x7d"

/-- Comma-separated rendering of a JSON array body. -/
def jsonDumpsList : List Val → String
  | [] => ""
  | [x] => jsonDumps x
  | x :: y :: xs => jsonDumps x ++ ", " ++ jsonDumpsList (y :: xs)

/-- Comma-separated rendering of a JSON object body. -/
def jsonDumpsFields : List (String × Val) → String
  | [] => ""
  | [(k, v)] => "\"" ++ k ++ "\": " ++ jsonDumps v
  | (k, v) :: f :: fs => "\"" ++ k ++ "\": " ++ jsonDumps v ++ ", " ++ jsonDumpsFields (f :: fs)

end

/-- Python `str(v)`: exact for `None`, booleans, integers and strings (the
only shapes any modelled claim evaluates it on).  For lists and dicts Python
formats via `repr` (single-quoted strings); we render those through
`jsonDumps` — the difference is immaterial to every claim below, none of
which applies `str` to a composite. -/
def pyStr : Val → String
  | .vnull => "None"
  | .vbool true => "True"
  | .vbool false => "False"
  | .vint n => toString n
  | .vstr s => s
  | v => jsonDumps v

/-! ### SSE line framing

Both streaming aggregators consume `response.iter_lines(...)`, decode each
raw line, strip a BOM and whitespace, and then branch on the line text.  A
`Line` records the outcome of that branching for one decoded line:

* `blank` — the stripped line is empty (`if not line: continue`);
* `event name` — the line starts with `event:` (skipped by
  `openai_responses.py` explicitly; `openai_chat.py` skips it because it does
  not start with `data:`);
* `data p` — the line starts with `data:`; `p` is the stripped payload:
  the `[DONE]` sentinel, a string on which `json.loads` raises
  (`malformed`), or the parsed JSON value (`json v`);
* `other s` — any other non-blank line (no branch matches; skipped).
-/

/-- Payload of a `data:` line after prefix stripping. -/
inductive Payload where
  | done
  | malformed (raw : String)
  | json (v : Val)

/-- One decoded, stripped line of the streamed response body. -/
inductive Line where
  | blank
  | event (name : String)
  | data (p : Payload)
  | other (raw : String)

/-! ### Chat-delta dialect aggregator

Embedding of `OpenAIChatTool._stream_chat_completion` (`openai_chat.py`
lines 18-98).  `OpenAICompletionsTool._stream_chat_completion`
(`openai_completions.py` lines 16-96) is textually identical, so this
embedding covers both tools.  The HTTP send and the non-2xx pre-check raise
before any line is consumed and are outside the modelled scope; the
aggregation is a fold over the decoded lines.
-/

/-- Mutable aggregation state of `_stream_chat_completion`: the local
variables `accumulated_text`, `finish_reason`, `model_id`, `completion_id`,
`created_ts` (`None` is `Val.vnull`). -/
structure ChatAgg where
  accumulated_text : String
  finish_reason : Val
  model_id : Val
  completion_id : Val
  created_ts : Val

/-- Initial aggregation state (all metadata `None`, empty accumulator). -/
def chatInit : ChatAgg :=
  ⟨"", .vnull, .vnull, .vnull, .vnull⟩

/-- `if piece: accumulated_text += piece` — append a truthy content value.
A truthy non-string would raise `TypeError` in Python (`str += non-str`);
no modelled stream carries one, so it leaves the accumulator unchanged. -/
def appendContent (acc : String) (piece : Val) : String :=
  if piece.truthy then
    match piece with
    | .vstr s => acc ++ s
    | _ => acc
  else acc

/-- Handling of the first element of a truthy `choices` list
(`openai_chat.py` lines 68-80): latch `finish_reason`, then append
`delta.content` when `delta` is a dict, else consult `message.content`. -/
def chatChoiceStep (st : ChatAgg) (c0 : Val) : ChatAgg :=
  let st1 := { st with finish_reason := pyOr (c0.get "finish_reason") st.finish_reason }
  let delta := pyOr (c0.get "delta") (Val.vobj [])
  match delta with
  | .vobj fs =>
    { st1 with accumulated_text := appendContent st1.accumulated_text ((Val.vobj fs).get "content") }
  | _ =>
    let msg := pyOr (c0.get "message") (Val.vobj [])
    match msg with
    | .vobj fs =>
      { st1 with accumulated_text := appendContent st1.accumulated_text ((Val.vobj fs).get "content") }
    | _ => st1

/-- Processing of one successfully parsed chunk (`openai_chat.py`
lines 62-80): metadata latched with Python `or`, then the first choice is
handled when `choices` is truthy.  A truthy non-list `choices` would raise
on indexing in Python (unmodelled); the empty-or-absent case is falsy and
skipped exactly as in the source. -/
def chatStep (st : ChatAgg) (chunk : Val) : ChatAgg :=
  let st1 := { st with
    model_id := pyOr (chunk.get "model") st.model_id,
    completion_id := pyOr (chunk.get "id") st.completion_id,
    created_ts := pyOr (chunk.get "created") st.created_ts }
  let choices := pyOr (chunk.get "choices") (Val.vlist [])
  match choices with
  | .vlist (c0 :: _) => chatChoiceStep st1 c0
  | _ => st1

/-- The line loop of `_stream_chat_completion` (`openai_chat.py`
lines 44-80): blank lines, non-`data:` lines and malformed payloads are
skipped; the `[DONE]` sentinel breaks out of the loop; parsed chunks go
through `chatStep`. -/
def chatRun (st : ChatAgg) : List Line → ChatAgg
  | [] => st
  | .blank :: ls => chatRun st ls
  | .event _ :: ls => chatRun st ls
  | .other _ :: ls => chatRun st ls
  | .data .done :: _ => st
  | .data (.malformed _) :: ls => chatRun st ls
  | .data (.json v) :: ls => chatRun (chatStep st v) ls

/-- The frozen result dict built after the loop (`openai_chat.py`
lines 82-97). -/
def chatResult (st : ChatAgg) : Val :=
  .vobj [("success", .vbool true),
         ("message", .vstr "对话成功"),
         ("data", .vobj [("content", .vstr st.accumulated_text),
                         ("role", .vstr "assistant"),
                         ("finishReason", st.finish_reason)]),
         ("metadata", .vobj [("model", st.model_id),
                             ("id", st.completion_id),
                             ("created", st.created_ts),
                             ("finishReason", st.finish_reason),
                             ("serviceTier", .vnull)])]

/-- Whole-stream aggregation: fold the lines from the initial state and
freeze the result. -/
def chatAggregate (lines : List Line) : Val :=
  chatResult (chatRun chatInit lines)

/-- A well-formed chat-delta frame carrying the text fragment `f`: its first
choice holds `delta.content = f` (the shape named by the spec for delta
frames). -/
def deltaFrame (f : String) : Val :=
  .vobj [("choices", .vlist [.vobj [("delta", .vobj [("content", .vstr f)])]])]

/-- The `data:` line carrying `deltaFrame f`. -/
def deltaLine (f : String) : Line :=
  .data (.json (deltaFrame f))

/-- The `data: [DONE]` line. -/
def doneLine : Line :=
  .data .done

/-! ### Typed-event dialect aggregator

Embedding of `OpenAIResponsesTool._stream_responses` (`openai_responses.py`
lines 98-234) and of the failure path of `OpenAIResponsesTool._invoke`
(lines 368-376).  The `response.failed` branch raises, which aborts the line
loop; we model that with `Except`.
-/

/-- Substring check over character lists (whether `pat` occurs in the list). -/
def charsContain (pat : List Char) : List Char → Bool
  | [] => pat.isEmpty
  | c :: cs => pat.isPrefixOf (c :: cs) || charsContain pat cs

/-- Python `pat in v` for a string `pat`: substring containment when `v` is a
string.  A truthy non-string would raise `TypeError` in Python; the modelled
streams only carry string `type` fields. -/
def pyInStr (pat : String) (v : Val) : Bool :=
  match v with
  | .vstr s => charsContain pat.toList s.toList
  | _ => false

/-- Mutable aggregation state of `_stream_responses`: the local variables
`accumulated_text`, `finish_reason`, `model_id`, `response_id`, `created_ts`,
`error_info`. -/
structure RespAgg where
  accumulated_text : String
  finish_reason : Val
  model_id : Val
  response_id : Val
  created_ts : Val
  error_info : Val

/-- Initial aggregation state of `_stream_responses`. -/
def respInit : RespAgg :=
  ⟨"", .vnull, .vnull, .vnull, .vnull, .vnull⟩

/-- Metadata latch (`openai_responses.py` lines 167-174): when the event
carries a dict `response`, latch `model` / `id` / `created_at` with Python
`or`, and record a truthy `error` sub-field. -/
def respLatch (st : RespAgg) (event : Val) : RespAgg :=
  match event.get "response" with
  | .vobj fs =>
    let resp := Val.vobj fs
    { st with
      model_id := pyOr (resp.get "model") st.model_id,
      response_id := pyOr (resp.get "id") st.response_id,
      created_ts := pyOr (resp.get "created_at") st.created_ts,
      error_info := if (resp.get "error").truthy then resp.get "error" else st.error_info }
  | _ => st

/-- Delta-bearing event (`openai_responses.py` lines 177-181 and, with the
identical body, lines 208-212): `delta = event.get('delta', '')`; a truthy
delta is stringified and appended. -/
def respAddDelta (st : RespAgg) (event : Val) : RespAgg :=
  let delta := event.getD "delta" (.vstr "")
  if delta.truthy then
    { st with accumulated_text := st.accumulated_text ++ pyStr delta }
  else st

/-- `accumulated_text += content_item.get('text', '')` for the output-text
content items of one message output item (`openai_responses.py`
lines 193-196).  A non-string text would raise `TypeError` in Python
(unmodelled); it leaves the accumulator unchanged here. -/
def extractFromContent (acc : String) : List Val → String
  | [] => acc
  | ci :: cis =>
    let acc1 :=
      if (ci.get "type").eqStr "output_text" then
        match ci.getD "text" (.vstr "") with
        | .vstr s => acc ++ s
        | _ => acc
      else acc
    extractFromContent acc1 cis

/-- Fallback text extraction from the `output` array of a completion event
(`openai_responses.py` lines 190-196): message-typed output items contribute
their output-text content parts.  A non-list `content` would raise in Python
(unmodelled); it contributes nothing here. -/
def extractOutput (acc : String) : List Val → String
  | [] => acc
  | item :: items =>
    let acc1 :=
      if (item.get "type").eqStr "message" then
        match item.getD "content" (.vlist []) with
        | .vlist cis => extractFromContent acc cis
        | _ => acc
      else acc
    extractOutput acc1 items

/-- Completion event (`openai_responses.py` lines 184-196): set
`finish_reason = 'stop'` and, only when no text was accumulated, run the
one-time fallback extraction over `response.output`. -/
def respComplete (st : RespAgg) (event : Val) : RespAgg :=
  let st1 := { st with finish_reason := Val.vstr "stop" }
  if st1.accumulated_text == "" then
    let resp := event.getD "response" (.vobj [])
    match resp.getD "output" (.vlist []) with
    | .vlist items => { st1 with accumulated_text := extractOutput st1.accumulated_text items }
    | _ => st1
  else st1

/-- The message of the exception raised by the `response.failed` branch
(`openai_responses.py` lines 199-205). -/
def respFailMessage (event : Val) : String :=
  let resp := event.getD "response" (.vobj [])
  let err := resp.getD "error" (.vobj [])
  "响应失败: " ++ pyStr (err.getD "code" (.vstr "unknown_error")) ++ " - "
    ++ pyStr (err.getD "message" (.vstr "The model failed to generate a response."))

/-- Processing of one successfully parsed typed event (`openai_responses.py`
lines 163-212): metadata latch, then dispatch on `event.get('type', '')`.
Only the `response.failed` branch raises. -/
def respStep (st : RespAgg) (event : Val) : Except String RespAgg :=
  let st1 := respLatch st event
  let etype := event.getD "type" (.vstr "")
  if etype.eqStr "response.output_text.delta" then .ok (respAddDelta st1 event)
  else if etype.eqStr "response.completed" then .ok (respComplete st1 event)
  else if etype.eqStr "response.failed" then .error (respFailMessage event)
  else if etype.truthy && pyInStr "delta" etype then .ok (respAddDelta st1 event)
  else .ok st1

/-- The line loop of `_stream_responses` (`openai_responses.py`
lines 139-212): blank lines, `event:` lines, other non-data lines and
malformed payloads are skipped; `[DONE]` breaks; a raising step aborts the
loop without consuming further lines. -/
def respRun (st : RespAgg) : List Line → Except String RespAgg
  | [] => .ok st
  | .blank :: ls => respRun st ls
  | .event _ :: ls => respRun st ls
  | .other _ :: ls => respRun st ls
  | .data .done :: _ => .ok st
  | .data (.malformed _) :: ls => respRun st ls
  | .data (.json v) :: ls =>
    match respStep st v with
    | .ok st1 => respRun st1 ls
    | .error e => .error e

/-- The frozen result dict built after the loop (`openai_responses.py`
lines 217-232). -/
def respResult (st : RespAgg) : Val :=
  .vobj [("success", .vbool true),
         ("message", .vstr "对话成功"),
         ("data", .vobj [("content", .vstr st.accumulated_text),
                         ("role", .vstr "assistant"),
                         ("finishReason", st.finish_reason)]),
         ("metadata", .vobj [("model", st.model_id),
                             ("id", st.response_id),
                             ("created", st.created_ts),
                             ("finishReason", st.finish_reason),
                             ("serviceTier", .vnull)])]

/-- The failure envelope built by the `except` handler of the chat and
responses `_invoke` methods: `{'success': False, 'message': str(e) or
'对话失败', 'error': str(e)}`. -/
def mkFailureEnvelope (msg : String) : Val :=
  .vobj [("success", .vbool false),
         ("message", if msg == "" then .vstr "对话失败" else .vstr msg),
         ("error", .vstr msg)]

/-- The single envelope yielded by `OpenAIResponsesTool._invoke` for a given
consumed stream: the frozen result on success, the failure envelope when the
aggregation raised (`openai_responses.py` lines 368-376). -/
def responsesOutcome (lines : List Line) : Val :=
  match respRun respInit lines with
  | .ok st => respResult st
  | .error e => mkFailureEnvelope e

/-- A well-formed `response.failed` event whose nested error carries the
given code and message. -/
def failedEvent (code msg : String) : Val :=
  .vobj [("type", .vstr "response.failed"),
         ("response", .vobj [("error", .vobj [("code", .vstr code), ("message", .vstr msg)])])]

/-- The `data:` line carrying `failedEvent code msg`. -/
def failedLine (code msg : String) : Line :=
  .data (.json (failedEvent code msg))

/-! ### Caller parameters

`tool_parameters` is a Python dict of caller-supplied values; we model it as
an association list (first binding wins, like a dict after updates).
-/

/-- The caller's `tool_parameters` mapping. -/
def Params : Type := List (String × Val)

/-- Python `tool_parameters.get(k)`: the bound value, `None` when absent. -/
def tpGet (tp : Params) (k : String) : Val :=
  (List.lookup k tp).getD .vnull

/-- Python `tool_parameters.get(k, d)`. -/
def tpGetD (tp : Params) (k : String) (d : Val) : Val :=
  (List.lookup k tp).getD d

/-- The mapping with `k` bound to `v` (shadowing any earlier binding). -/
def setParam (tp : Params) (k : String) (v : Val) : Params :=
  (k, v) :: tp

/-- The mapping with every binding of `k` removed. -/
def eraseParam : Params → String → Params
  | [], _ => []
  | p :: tp, k => if p.1 == k then eraseParam tp k else p :: eraseParam tp k

/-! ### Chat request-body builder

Embedding of the body construction in `OpenAIChatTool._invoke`
(`openai_chat.py` lines 104-207).  `OpenAICompletionsTool._invoke`
(`openai_completions.py` lines 102-191) builds the identical body, so this
embedding covers both tools.  `apiKey` only feeds the request headers and
`host` is a constant; neither enters the body.
-/

/-- The per-parameter sentinel filter used inline for every optional chat
parameter (`openai_chat.py` lines 111-123):
`tool_parameters.get(k) if tool_parameters.get(k) != 'variable' else None`. -/
def chatOptVal (tp : Params) (k : String) : Val :=
  let v := tpGet tp k
  if v.eqStr "variable" then .vnull else v

/-- Content normalization for one chat message (`openai_chat.py`
lines 137-158): strings and lists pass through, a dict with a truthy
`text`/`content` field becomes a one-element typed-part list, other dicts
are JSON-serialized, and remaining types are stringified. -/
def formatContent (content : Val) : Val :=
  match content with
  | .vstr _ => content
  | .vlist _ => content
  | .vobj fs =>
    let text := pyOr ((Val.vobj fs).get "text") ((Val.vobj fs).get "content")
    if text.truthy then .vlist [.vobj [("type", .vstr "text"), ("text", text)]]
    else .vstr (jsonDumps (Val.vobj fs))
  | v => .vstr (pyStr v)

/-- The `conversation_messages` loop (`openai_chat.py` lines 130-163): a
message with falsy `content` is skipped; otherwise its role (default
`user`) and normalized content are appended. -/
def conversationMessages : List Val → List Val
  | [] => []
  | m :: ms =>
    let content := m.get "content"
    if content.truthy then
      .vobj [("role", m.getD "role" (.vstr "user")), ("content", formatContent content)]
        :: conversationMessages ms
    else conversationMessages ms

/-- The messages/prompt branch (`openai_chat.py` lines 130-170): a truthy
non-empty list of messages is normalized; otherwise a truthy prompt becomes
a single user message; otherwise the missing-parameter exception is
raised. -/
def chatConversation (messages prompt : Val) : Except String (List Val) :=
  match messages with
  | .vlist (m :: ms) => .ok (conversationMessages (m :: ms))
  | _ =>
    if prompt.truthy then .ok [.vobj [("role", .vstr "user"), ("content", prompt)]]
    else .error "必须提供 messages 或 prompt 参数"

/-- `if v is not None: body[k] = v` — the guarded inclusion of one optional
body field. -/
def optEntry (k : String) (v : Val) : List (String × Val) :=
  if v.isNone then [] else [(k, v)]

/-- The request body assembled from the extracted parameter values
(`openai_chat.py` lines 172-206): `model` and `messages` first, each
optional field included only when not `None`, then `stream: True`. -/
def chatBodyCore (model : Val) (conv : Except String (List Val))
    (temperature maxTok topP freqPen presPen n stopv respFormat reasoningEffort
      seed logitBias logprobs topLogprobs : Val) : Except String Val :=
  match conv with
  | .error e => .error e
  | .ok msgs =>
    .ok (.vobj ([("model", model), ("messages", .vlist msgs)]
      ++ optEntry "temperature" temperature
      ++ optEntry "max_completion_tokens" maxTok
      ++ optEntry "top_p" topP
      ++ optEntry "frequency_penalty" freqPen
      ++ optEntry "presence_penalty" presPen
      ++ optEntry "n" n
      ++ optEntry "stop" stopv
      ++ optEntry "response_format" respFormat
      ++ optEntry "reasoning_effort" reasoningEffort
      ++ optEntry "seed" seed
      ++ optEntry "logit_bias" logitBias
      ++ optEntry "logprobs" logprobs
      ++ optEntry "top_logprobs" topLogprobs
      ++ [("stream", .vbool true)]))

/-- The request body (or raised validation error) of
`OpenAIChatTool._invoke` as a function of the caller parameters. -/
def chatBuildBody (tp : Params) : Except String Val :=
  chatBodyCore (tpGetD tp "model" (.vstr "gpt-4o"))
    (chatConversation (tpGetD tp "messages" (.vlist [])) (tpGet tp "prompt"))
    (chatOptVal tp "temperature") (chatOptVal tp "maxCompletionTokens")
    (chatOptVal tp "topP") (chatOptVal tp "frequencyPenalty")
    (chatOptVal tp "presencePenalty") (chatOptVal tp "n")
    (chatOptVal tp "stop") (chatOptVal tp "responseFormat")
    (chatOptVal tp "reasoningEffort") (chatOptVal tp "seed")
    (chatOptVal tp "logitBias") (chatOptVal tp "logprobs")
    (chatOptVal tp "topLogprobs")

/-- The optional chat parameters handled by the sentinel filter
(`openai_chat.py` lines 111-123). -/
def chatOptionalKeys : List String :=
  ["temperature", "maxCompletionTokens", "topP", "frequencyPenalty",
   "presencePenalty", "n", "stop", "responseFormat", "reasoningEffort",
   "seed", "logitBias", "logprobs", "topLogprobs"]

/-! ### Output messages

Each `_invoke` is a generator of host messages: JSON envelopes
(`create_json_message`) and binary artifacts (`create_blob_message`).  The
generated blob filename (wall-clock timestamp, sequence number and random
suffix, `banana_gen.py` lines 184-186) is nondeterministic and immaterial to
every claim; the blob keeps its bytes and MIME type.
-/

/-- One host message yielded by a tool invocation. -/
inductive Msg where
  | json (v : Val)
  | blob (bytes : List Nat) (mime : Val)

/-- The messages yielded by `OpenAIChatTool._invoke` for given parameters
and a consumed stream: one failure envelope when body construction raises,
else the single aggregated result envelope (`openai_chat.py`
lines 101-226).  The HTTP error paths (network failure, non-2xx status)
likewise raise into the same single-envelope handler and are outside the
modelled scope. -/
def chatInvokeMessages (tp : Params) (lines : List Line) : List Msg :=
  match chatBuildBody tp with
  | .error e => [.json (mkFailureEnvelope e)]
  | .ok _ => [.json (chatAggregate lines)]

/-! ### Sora video request builder

Embedding of the request construction in `SoraVideoTool._invoke`
(`sora_video.py` lines 22-103): parameter extraction with defaults, the
`process_param` sentinel filter, the sora-2 compatibility coercions, and
the `request_data` dict.
-/

/-- `process_param` (`sora_video.py` lines 35-38): the `'variable'` sentinel
becomes `None`. -/
def processParam (v : Val) : Val :=
  if v.eqStr "variable" then .vnull else v

/-- `if v: body[k] = v` — inclusion of one body field guarded on
truthiness. -/
def truthyEntry (k : String) (v : Val) : List (String × Val) :=
  if v.truthy then [(k, v)] else []

/-- The `request_data` dict sent by `SoraVideoTool._invoke` as a function of
the caller parameters (`sora_video.py` lines 22-89): `model`, `prompt` and
`seconds` are always present; `size`/`seconds` out-of-range values for
`sora-2` are silently coerced to the defaults; the optional fields are
included only when truthy (`watermark`/`private`: only when not `None`). -/
def soraRequestData (tp : Params) : Val :=
  let model := processParam (tpGetD tp "model" (.vstr "sora-2"))
  let prompt := processParam (tpGet tp "prompt")
  let seconds := processParam (tpGetD tp "seconds" (.vstr "10"))
  let inputReference := processParam (tpGet tp "input_reference")
  let size := processParam (tpGet tp "size")
  let watermark := processParam (tpGet tp "watermark")
  let priv := processParam (tpGet tp "private")
  let characterUrl := processParam (tpGet tp "character_url")
  let characterTimestamps := processParam (tpGet tp "character_timestamps")
  let size :=
    if model.eqStr "sora-2" && size.truthy && !(size.inStrList ["720x1280", "1280x720"]) then
      Val.vstr "1280x720"
    else size
  let seconds :=
    if model.eqStr "sora-2" && seconds.truthy && !(seconds.inStrList ["10", "15"]) then
      Val.vstr "10"
    else seconds
  .vobj ([("model", model), ("prompt", prompt), ("seconds", seconds)]
    ++ truthyEntry "input_reference" inputReference
    ++ truthyEntry "size" size
    ++ optEntry "watermark" watermark
    ++ optEntry "private" priv
    ++ truthyEntry "character_url" characterUrl
    ++ truthyEntry "character_timestamps" characterTimestamps)

/-! ### Banana image emission pipeline

Embedding of the response side of `BananaGenTool._invoke` (`banana_gen.py`
lines 156-211): image extraction from the parsed response, per-image base64
decoding with per-image failure isolation, and the message sequence yielded
to the host.
-/

/-- Python `k in v` for a dict: key membership (the value may be falsy). -/
def hasKey (v : Val) (k : String) : Bool :=
  match v with
  | .vobj fs => (List.lookup k fs).isSome
  | _ => false

/-- One part of the candidate content (`banana_gen.py` lines 165-170): a
part with `inlineData.data` contributes its data value and MIME type
(default `image/png`). -/
def partImage (part : Val) : Option (Val × Val) :=
  if hasKey part "inlineData" && hasKey (part.get "inlineData") "data" then
    some ((part.get "inlineData").get "data",
          (part.get "inlineData").getD "mimeType" (.vstr "image/png"))
  else none

/-- The `images` list extracted from the parsed response (`banana_gen.py`
lines 160-170): the first candidate's content parts that carry inline
data. -/
def extractImages (result : Val) : List (Val × Val) :=
  match result.get "candidates" with
  | .vlist (candidate :: _) =>
    if hasKey candidate "content" && hasKey (candidate.get "content") "parts" then
      match (candidate.get "content").get "parts" with
      | .vlist parts => parts.filterMap partImage
      | _ => []
    else []
  | _ => []

/-- Value of one base64 alphabet character. -/
def b64charVal (c : Char) : Option Nat :=
  if 'A' ≤ c ∧ c ≤ 'Z' then some (c.toNat - 65)
  else if 'a' ≤ c ∧ c ≤ 'z' then some (c.toNat - 71)
  else if '0' ≤ c ∧ c ≤ '9' then some (c.toNat + 4)
  else if c = '+' then some 62
  else if c = '/' then some 63
  else none

/-- Byte groups of a base64 digit sequence: each quad yields three bytes, a
trailing pair or triple yields one or two bytes, and a single trailing digit
cannot be decoded. -/
def b64decodeDigits : List Nat → Option (List Nat)
  | [] => some []
  | [_] => none
  | [a, b] => some [a * 4 + b / 16]
  | [a, b, c] => some [a * 4 + b / 16, (b % 16) * 16 + c / 4]
  | a :: b :: c :: d :: rest =>
    (b64decodeDigits rest).map
      (fun t => (a * 4 + b / 16) :: ((b % 16) * 16 + c / 4) :: ((c % 4) * 64 + d) :: t)

/-- Python `base64.b64decode(s)` (`validate=False`, as called at
`banana_gen.py` line 181): characters outside the alphabet and padding are
discarded, the remaining length must be a multiple of four
(`binascii.Error: Invalid padding` otherwise, i.e. `none` here), and the
digit groups decode to bytes.  Exotic placements of embedded padding
characters are not distinguished; no modelled claim exercises them. -/
def b64decode (s : String) : Option (List Nat) :=
  let kept := s.toList.filter (fun c => (b64charVal c).isSome || c == '=')
  if kept.length % 4 != 0 then none
  else b64decodeDigits ((kept.takeWhile (fun c => c != '=')).filterMap b64charVal)

/-- The failure envelope of `BananaGenTool._invoke` (`banana_gen.py`
lines 208-211): success flag and error text only, no `message` field. -/
def bananaFailureEnvelope (msg : String) : Val :=
  .vobj [("success", .vbool false), ("error", .vstr msg)]

/-- One iteration of the per-image emission loop (`banana_gen.py`
lines 178-201): an image whose base64 data decodes yields one blob; a
decode failure is caught and skipped (`except ... continue`), yielding
nothing.  Decoding a non-string data value raises `TypeError` in Python and
is likewise caught and skipped. -/
def bananaEmitImage (img : Val × Val) : Option Msg :=
  match img.1 with
  | .vstr s => (b64decode s).map (fun bytes => Msg.blob bytes img.2)
  | _ => none

/-- The messages yielded by `BananaGenTool._invoke` for a parsed upstream
response (`banana_gen.py` lines 159-211): with no extracted image the
raised exception becomes one failure envelope; otherwise one blob per
decodable image via `bananaEmitImage`, with no summary envelope after the
loop. -/
def bananaMessages (result : Val) : List Msg :=
  let images := extractImages result
  if images.isEmpty then
    [.json (bananaFailureEnvelope "未能从响应中提取图片数据")]
  else
    images.filterMap bananaEmitImage

/-! ### Remaining request builders and invocation outcomes

Embeddings of the request builders of `klingus_image2video.py`,
`suno_submit_music.py` and the parameter normalizer of
`openai_responses.py`, and of the per-invocation message sequences of the
non-streaming tools.  The HTTP client is an external collaborator; its
outcome for the one request an invocation sends is abstracted as an
`HttpReply`.
-/

/-- The `request_data` dict sent by `KlingusImage2VideoTool._invoke`
(`klingus_image2video.py` lines 22-89): every parameter passes the
`process_param` sentinel filter; `model_name`, `prompt`, `image`,
`image_tail`, `mode`, `duration` and `enable_audio` are always present
(the last four with non-null defaults on omission); the optional fields are
included only when truthy (`cfg_scale`: only when not `None`). -/
def klingusRequestData (tp : Params) : Val :=
  let modelName := processParam (tpGetD tp "model_name" (.vstr "kling-v1"))
  let prompt := processParam (tpGet tp "prompt")
  let negativePrompt := processParam (tpGet tp "negative_prompt")
  let image := processParam (tpGet tp "image")
  let imageTail := processParam (tpGet tp "image_tail")
  let cfgScale := processParam (tpGet tp "cfg_scale")
  let mode := processParam (tpGetD tp "mode" (.vstr "std"))
  let aspectRatio := processParam (tpGet tp "aspect_ratio")
  let duration := processParam (tpGetD tp "duration" (.vstr "5"))
  let callbackUrl := processParam (tpGet tp "callback_url")
  let externalTaskId := processParam (tpGet tp "external_task_id")
  let enableAudio := processParam (tpGetD tp "enable_audio" (.vbool true))
  .vobj ([("model_name", modelName), ("prompt", prompt), ("image", image),
          ("image_tail", imageTail), ("mode", mode), ("duration", duration),
          ("enable_audio", enableAudio)]
    ++ truthyEntry "negative_prompt" negativePrompt
    ++ optEntry "cfg_scale" cfgScale
    ++ truthyEntry "aspect_ratio" aspectRatio
    ++ truthyEntry "callback_url" callbackUrl
    ++ truthyEntry "external_task_id" externalTaskId)

/-- `_norm` in `SunoSubmitMusicTool._invoke` (`suno_submit_music.py`
lines 24-25): `v in (None, '', 'variable')` normalizes to `None`. -/
def sunoNorm (v : Val) : Val :=
  if v.isNone || v.eqStr "" || v.eqStr "variable" then .vnull else v

/-- The validated request body of `SunoSubmitMusicTool._invoke`
(`suno_submit_music.py` lines 18-49): missing `apiKey` or missing
`prompt`/`mv`/`title` raise; the four optional fields pass `_norm` and are
included only when not `None`. -/
def sunoSubmitBody (tp : Params) : Except String Val :=
  let apiKey := tpGet tp "apiKey"
  let prompt := tpGet tp "prompt"
  let mv := tpGet tp "mv"
  let title := tpGet tp "title"
  let tags := sunoNorm (tpGet tp "tags")
  let task := sunoNorm (tpGet tp "task")
  let continueAt := sunoNorm (tpGet tp "continue_at")
  let continueClipId := sunoNorm (tpGet tp "continue_clip_id")
  if !apiKey.truthy then .error "缺少 apiKey"
  else if !prompt.truthy || !mv.truthy || !title.truthy then
    .error "prompt、mv、title 为必填参数"
  else
    .ok (.vobj ([("prompt", prompt), ("mv", mv), ("title", title)]
      ++ optEntry "tags" tags
      ++ optEntry "task" task
      ++ optEntry "continue_at" continueAt
      ++ optEntry "continue_clip_id" continueClipId))

/-- `get_param` in `OpenAIResponsesTool._invoke` (`openai_responses.py`
lines 270-274): `None`, the sentinel and the empty string all normalize to
`None`.  Every optional parameter of the responses tool is read through
this normalizer before any use. -/
def respGetParam (tp : Params) (k : String) : Val :=
  let v := tpGet tp k
  if v.isNone || v.eqStr "variable" || v.eqStr "" then .vnull else v

/-- Outcome of the one HTTP request an invocation sends: a network-level
exception carrying its message, or a reply with its `ok` flag, status code,
`reason` phrase, body text, and the outcome of `response.json()`
(`Except.error` carries the parse exception's message). -/
inductive HttpReply where
  | networkError (msg : String)
  | reply (ok : Bool) (status : Int) (reason : String) (text : String)
      (body : Except String Val)

/-- Failure envelope `{'success': False, 'message': str(e) or dflt,
'error': str(e)}` built by the generic `except` handler of the
non-chat tools, each with its own default message. -/
def failEnvelopeD (dflt msg : String) : Val :=
  .vobj [("success", .vbool false),
         ("message", if msg == "" then .vstr dflt else .vstr msg),
         ("error", .vstr msg)]

/-- The messages yielded by `SoraVideoTool._invoke` (`sora_video.py`
lines 17-138) for a given HTTP outcome.  The request body is
`soraRequestData tp` (built totally, no failure path); the emitted envelope
depends only on the HTTP outcome: a network exception or non-2xx status or
JSON-parse failure raises into the single failure envelope, success maps
the parsed body's fields. -/
def soraInvokeMessages (tp : Params) (h : HttpReply) : List Msg :=
  let _ := soraRequestData tp
  match h with
  | .networkError m => [.json (failEnvelopeD "视频生成失败" m)]
  | .reply ok status _ text body =>
    if !ok then
      [.json (failEnvelopeD "视频生成失败"
        ("API 请求失败: " ++ toString status ++ " - " ++ text))]
    else match body with
      | .error m => [.json (failEnvelopeD "视频生成失败" m)]
      | .ok result =>
        [.json (.vobj [("success", .vbool true),
          ("message", .vstr "视频生成任务已提交"),
          ("data", .vobj [("task_id", result.get "id"), ("model", result.get "model"),
            ("status", result.get "status"), ("created", result.get "created"),
            ("expires_at", result.get "expires_at"),
            ("task_type", result.get "task_type")])])]

/-- The messages yielded by `SoraVideoQueryTool._invoke`
(`sora_video_query.py` lines 17-74) for a given HTTP outcome. -/
def soraQueryMessages (tp : Params) (h : HttpReply) : List Msg :=
  let _ := tpGet tp "id"
  match h with
  | .networkError m => [.json (failEnvelopeD "视频查询失败" m)]
  | .reply ok status _ text body =>
    if !ok then
      [.json (failEnvelopeD "视频查询失败"
        ("API 请求失败: " ++ toString status ++ " - " ++ text))]
    else match body with
      | .error m => [.json (failEnvelopeD "视频查询失败" m)]
      | .ok result =>
        [.json (.vobj [("success", .vbool true), ("message", .vstr "视频查询成功"),
          ("data", .vobj [("id", result.get "id"), ("model", result.get "model"),
            ("status", result.get "status"), ("progress", result.get "progress"),
            ("seconds", result.get "seconds"), ("size", result.get "size"),
            ("created_at", result.get "created_at"),
            ("completed_at", result.get "completed_at"),
            ("url", result.get "url"), ("video_url", result.get "video_url"),
            ("result_url", result.get "result_url")])])]

/-- The messages yielded by `KlingusImage2VideoTool._invoke`
(`klingus_image2video.py` lines 17-118) for a given HTTP outcome. -/
def klingusInvokeMessages (tp : Params) (h : HttpReply) : List Msg :=
  let _ := klingusRequestData tp
  match h with
  | .networkError m => [.json (failEnvelopeD "视频生成任务提交失败" m)]
  | .reply ok status _ text body =>
    if !ok then
      [.json (failEnvelopeD "视频生成任务提交失败"
        ("API 请求失败: " ++ toString status ++ " - " ++ text))]
    else match body with
      | .error m => [.json (failEnvelopeD "视频生成任务提交失败" m)]
      | .ok result =>
        [.json (.vobj [("success", .vbool true),
          ("message", .vstr "视频生成任务已提交"),
          ("data", result.getD "data" (.vobj []))])]

/-- The messages yielded by `KlingusText2VideoQueryTool._invoke`
(`klingus_text2video_query.py` lines 17-79) for a given HTTP outcome; a
JSON-parse failure is re-raised with the parse error and body text in the
message. -/
def klingusQueryMessages (tp : Params) (h : HttpReply) : List Msg :=
  let _ := tpGet tp "task_id"
  match h with
  | .networkError m => [.json (failEnvelopeD "任务查询失败" m)]
  | .reply ok status _ text body =>
    if !ok then
      [.json (failEnvelopeD "任务查询失败"
        ("API 请求失败: " ++ toString status ++ " - " ++ text))]
    else match body with
      | .error m =>
        [.json (failEnvelopeD "任务查询失败"
          ("JSON 解析失败: " ++ m ++ "，响应内容: " ++ text))]
      | .ok result =>
        [.json (.vobj [("success", .vbool true), ("message", .vstr "任务查询成功"),
          ("data", result.getD "data" (.vobj []))])]

/-- The messages yielded by `SunoSubmitMusicTool._invoke`
(`suno_submit_music.py` lines 15-81) for a given HTTP outcome: validation
failures and the generic handler yield one failure envelope; a network
exception yields its dedicated envelope; a non-2xx reply echoes the body
text; a JSON-parse failure falls back to `{'raw': text}` and still yields
the success envelope. -/
def sunoSubmitMessages (tp : Params) (h : HttpReply) : List Msg :=
  match sunoSubmitBody tp with
  | .error e => [.json (failEnvelopeD "任务提交失败" e)]
  | .ok _ =>
    match h with
    | .networkError m =>
      [.json (.vobj [("success", .vbool false),
        ("message", .vstr "网络异常，无法连接到 Model Link API"), ("error", .vstr m)])]
    | .reply ok _ _ text body =>
      if !ok then
        [.json (.vobj [("success", .vbool false), ("message", .vstr text),
          ("error", .vstr text)])]
      else
        let data := match body with
          | .ok d => d
          | .error _ => .vobj [("raw", .vstr text)]
        [.json (.vobj [("success", .vbool true), ("message", .vstr "任务提交成功"),
          ("data", data)])]

/-- The messages yielded by `SunoFetchMusicTool._invoke`
(`suno_fetch_music.py` lines 14-45) for a given HTTP outcome: a falsy
`task_id` raises into the failure envelope before any request is sent. -/
def sunoFetchMessages (tp : Params) (h : HttpReply) : List Msg :=
  if !(tpGet tp "task_id").truthy then
    [.json (failEnvelopeD "查询失败" "task_id 为必填参数")]
  else match h with
    | .networkError m => [.json (failEnvelopeD "查询失败" m)]
    | .reply ok _ _ text body =>
      if !ok then
        [.json (.vobj [("success", .vbool false), ("message", .vstr text),
          ("error", .vstr text)])]
      else
        let data := match body with
          | .ok d => d
          | .error _ => .vobj [("raw", .vstr text)]
        [.json (.vobj [("success", .vbool true), ("message", .vstr "查询成功"),
          ("data", data)])]

/-- The single envelope yielded by `OpenAIResponsesTool._invoke` per
consumed stream (`openai_responses.py` lines 368-376).  Pre-stream failures
(apiKey validation, content normalization, network, non-2xx) raise into the
same single-envelope `except` handler before any line is consumed. -/
def responsesInvokeMessages (lines : List Line) : List Msg :=
  [.json (responsesOutcome lines)]

/-- Best-effort error text for a non-2xx banana response (`banana_gen.py`
lines 138-153): tries `{error: str}`, `{error: {message}}`, other `error`
shapes via `json.dumps`, then `{message}`, falling back to the HTTP status
line; a body that fails to parse keeps the fallback
(`except ... pass`). -/
def bananaErrorMessage (status : Int) (reason : String)
    (body : Except String Val) : Val :=
  match body with
  | .error _ => .vstr ("HTTP " ++ toString status ++ ": " ++ reason)
  | .ok ed =>
    if hasKey ed "error" then
      match ed.get "error" with
      | .vstr s => .vstr s
      | .vobj fs =>
        if hasKey (Val.vobj fs) "message" then (Val.vobj fs).get "message"
        else .vstr (jsonDumps (.vobj fs))
      | other => .vstr (jsonDumps other)
    else if hasKey ed "message" then ed.get "message"
    else .vstr ("HTTP " ++ toString status ++ ": " ++ reason)

/-- The messages yielded by `BananaGenTool._invoke` for a given HTTP
outcome (`banana_gen.py` lines 136-211): network, non-2xx and parse
failures raise into one failure envelope; a parsed response goes through
the extraction/emission pipeline `bananaMessages`. -/
def bananaInvokeMessages (h : HttpReply) : List Msg :=
  match h with
  | .networkError m => [.json (bananaFailureEnvelope m)]
  | .reply ok status reason _ body =>
    if !ok then
      [.json (bananaFailureEnvelope
        ("API 请求失败: " ++ pyStr (bananaErrorMessage status reason body)))]
    else match body with
      | .error m => [.json (bananaFailureEnvelope m)]
      | .ok result => bananaMessages result

/-- The sentinel-filtered sora parameters whose body inclusion is guarded
on the normalized value (`sora_video.py` lines 78-89). -/
def soraGuardedKeys : List String :=
  ["input_reference", "size", "watermark", "private", "character_url",
   "character_timestamps"]

/-- The sentinel-filtered klingus optional parameters whose body inclusion
is guarded on the normalized value (`klingus_image2video.py`
lines 70-80). -/
def klingusOptionalKeys : List String :=
  ["negative_prompt", "cfg_scale", "aspect_ratio", "callback_url",
   "external_task_id"]

/-- The `_norm`-filtered suno submit optional parameters
(`suno_submit_music.py` lines 27-30, 42-49). -/
def sunoOptionalKeys : List String :=
  ["tags", "task", "continue_at", "continue_clip_id"]

/-- Whether every parsed JSON frame among the lines satisfies `P` (skipped
line kinds carry no frame). -/
def framesAll (P : Val → Bool) : List Line → Bool
  | [] => true
  | .data (.json v) :: ls => P v && framesAll P ls
  | _ :: ls => framesAll P ls

/-- Concatenation of a list of text fragments in order
(`f1 ++ f2 ++ ... ++ fN`). -/
def concatAll : List String → String
  | [] => ""
  | s :: l => s ++ concatAll l

/-! ### Shared lemmas -/

theorem pyOr_vnull (b : Val) : pyOr .vnull b = b := rfl

theorem Val.isNone_iff (v : Val) : v.isNone = true ↔ v = .vnull := by
  cases v <;> simp [Val.isNone]

theorem appendContent_vstr (acc s : String) : appendContent acc (.vstr s) = acc ++ s := by
  by_cases h : s = ""
  · subst h; simp [appendContent, Val.truthy]
  · simp [appendContent, Val.truthy, h]

theorem chatChoiceStep_model (st : ChatAgg) (c : Val) :
    (chatChoiceStep st c).model_id = st.model_id := by
  unfold chatChoiceStep
  dsimp only
  repeat' split
  all_goals rfl

theorem chatChoiceStep_id (st : ChatAgg) (c : Val) :
    (chatChoiceStep st c).completion_id = st.completion_id := by
  unfold chatChoiceStep
  dsimp only
  repeat' split
  all_goals rfl

theorem chatChoiceStep_created (st : ChatAgg) (c : Val) :
    (chatChoiceStep st c).created_ts = st.created_ts := by
  unfold chatChoiceStep
  dsimp only
  repeat' split
  all_goals rfl

theorem chatStep_model (st : ChatAgg) (chunk : Val) :
    (chatStep st chunk).model_id = pyOr (chunk.get "model") st.model_id := by
  unfold chatStep
  dsimp only
  split <;> simp [chatChoiceStep_model]

theorem chatStep_id (st : ChatAgg) (chunk : Val) :
    (chatStep st chunk).completion_id = pyOr (chunk.get "id") st.completion_id := by
  unfold chatStep
  dsimp only
  split <;> simp [chatChoiceStep_id]

theorem chatStep_created (st : ChatAgg) (chunk : Val) :
    (chatStep st chunk).created_ts = pyOr (chunk.get "created") st.created_ts := by
  unfold chatStep
  dsimp only
  split <;> simp [chatChoiceStep_created]

/-- Generic monotone-latch preservation for the chat-delta run: a projection
unchanged by every step whose frame satisfies `P` is unchanged by a whole
run of `P`-frames. -/
theorem chatRun_preserve (p : ChatAgg → Val) (P : Val → Bool)
    (hstep : ∀ st v, P v = true → p (chatStep st v) = p st) :
    ∀ (ls : List Line) (st : ChatAgg), framesAll P ls = true →
      p (chatRun st ls) = p st := by
  intro ls
  induction ls with
  | nil => intro st _; rfl
  | cons l ls ih =>
    intro st h
    cases l with
    | blank => exact ih st h
    | event n => exact ih st h
    | other s => exact ih st h
    | data pld =>
      cases pld with
      | done => rfl
      | malformed r => exact ih st h
      | json v =>
        have h' : P v = true ∧ framesAll P ls = true := by
          simpa [framesAll, Bool.and_eq_true] using h
        show p (chatRun (chatStep st v) ls) = p st
        rw [ih _ h'.2, hstep st v h'.1]

theorem chatStep_deltaFrame (st : ChatAgg) (f : String) :
    chatStep st (deltaFrame f) = { st with accumulated_text := st.accumulated_text ++ f } := by
  simp [chatStep, deltaFrame, chatChoiceStep, Val.get, pyOr, Val.truthy, appendContent_vstr,
    List.lookup]

theorem chatRun_deltaLines (fs : List String) (rest : List Line) (st : ChatAgg) :
    chatRun st (fs.map deltaLine ++ rest)
      = chatRun { st with accumulated_text := st.accumulated_text ++ concatAll fs } rest := by
  induction fs generalizing st with
  | nil => rw [show concatAll [] = "" from rfl, String.append_empty]; rfl
  | cons f fs ih =>
    simp only [List.map_cons, List.cons_append]
    show chatRun (chatStep st (deltaFrame f)) (fs.map deltaLine ++ rest) = _
    rw [chatStep_deltaFrame, ih]
    simp only [concatAll, String.append_assoc]

/-- C1: for a streamed chat response consisting of well-formed delta frames
carrying the text fragments `fs` — whether followed by `[DONE]` or simply by
the end of the body — the `content` field of the aggregated result is the
concatenation of the fragments in arrival order, with no reordering,
duplication or omission. -/
theorem c1_delta_ordering (fs : List String) :
    ((chatAggregate (fs.map deltaLine ++ [doneLine])).get "data").get "content"
        = .vstr (concatAll fs)
    ∧ ((chatAggregate (fs.map deltaLine)).get "data").get "content"
        = .vstr (concatAll fs) := by
  have h1 := chatRun_deltaLines fs [doneLine] chatInit
  have h2 := chatRun_deltaLines fs [] chatInit
  rw [List.append_nil] at h2
  constructor
  · unfold chatAggregate
    rw [h1]
    show Val.vstr ("" ++ concatAll fs) = Val.vstr (concatAll fs)
    rw [String.empty_append]
  · unfold chatAggregate
    rw [h2]
    show Val.vstr ("" ++ concatAll fs) = Val.vstr (concatAll fs)
    rw [String.empty_append]

theorem chatRun_done_stop (pre rest : List Line) (st : ChatAgg) :
    chatRun st (pre ++ doneLine :: rest) = chatRun st (pre ++ [doneLine]) := by
  induction pre generalizing st with
  | nil => rfl
  | cons l pre ih =>
    cases l with
    | blank => exact ih st
    | event n => exact ih st
    | other s => exact ih st
    | data pld =>
      cases pld with
      | done => rfl
      | malformed r => exact ih st
      | json v => exact ih (chatStep st v)

theorem respRun_done_stop (pre rest : List Line) (st : RespAgg) :
    respRun st (pre ++ doneLine :: rest) = respRun st (pre ++ [doneLine]) := by
  induction pre generalizing st with
  | nil => rfl
  | cons l pre ih =>
    cases l with
    | blank => exact ih st
    | event n => exact ih st
    | other s => exact ih st
    | data pld =>
      cases pld with
      | done => rfl
      | malformed r => exact ih st
      | json v =>
        show (match respStep st v with
              | .ok s1 => respRun s1 (pre ++ doneLine :: rest)
              | .error e => .error e)
            = (match respStep st v with
              | .ok s1 => respRun s1 (pre ++ [doneLine])
              | .error e => .error e)
        cases respStep st v with
        | ok s1 => exact ih s1
        | error e => rfl

/-- C5: in both streaming dialects, once a `data: [DONE]` line appears, the
aggregated result — content, finish reason and every metadata field, i.e.
the whole frozen envelope — is identical to the one produced by the stream
truncated immediately after the `[DONE]` line; lines after `[DONE]`, even
valid delta or metadata frames, have no effect. -/
theorem c5_done_precedence (pre rest : List Line) :
    chatAggregate (pre ++ doneLine :: rest) = chatAggregate (pre ++ [doneLine])
    ∧ responsesOutcome (pre ++ doneLine :: rest) = responsesOutcome (pre ++ [doneLine]) := by
  refine ⟨?_, ?_⟩
  · unfold chatAggregate
    rw [chatRun_done_stop]
  · unfold responsesOutcome
    rw [respRun_done_stop]

theorem respLatch_model (st : RespAgg) (event : Val)
    (h : ((event.get "response").get "model").isNone = true) :
    (respLatch st event).model_id = st.model_id := by
  unfold respLatch
  split
  next fs heq =>
    rw [heq] at h
    dsimp only
    rw [(Val.isNone_iff _).mp h, pyOr_vnull]
  next => rfl

theorem respLatch_id (st : RespAgg) (event : Val)
    (h : ((event.get "response").get "id").isNone = true) :
    (respLatch st event).response_id = st.response_id := by
  unfold respLatch
  split
  next fs heq =>
    rw [heq] at h
    dsimp only
    rw [(Val.isNone_iff _).mp h, pyOr_vnull]
  next => rfl

theorem respLatch_created (st : RespAgg) (event : Val)
    (h : ((event.get "response").get "created_at").isNone = true) :
    (respLatch st event).created_ts = st.created_ts := by
  unfold respLatch
  split
  next fs heq =>
    rw [heq] at h
    dsimp only
    rw [(Val.isNone_iff _).mp h, pyOr_vnull]
  next => rfl

theorem respAddDelta_meta (st : RespAgg) (e : Val) :
    (respAddDelta st e).model_id = st.model_id
    ∧ (respAddDelta st e).response_id = st.response_id
    ∧ (respAddDelta st e).created_ts = st.created_ts := by
  unfold respAddDelta
  dsimp only
  split <;> exact ⟨rfl, rfl, rfl⟩

theorem respComplete_meta (st : RespAgg) (e : Val) :
    (respComplete st e).model_id = st.model_id
    ∧ (respComplete st e).response_id = st.response_id
    ∧ (respComplete st e).created_ts = st.created_ts := by
  unfold respComplete
  dsimp only
  repeat' split
  all_goals exact ⟨rfl, rfl, rfl⟩

theorem respStep_ok_cases (st : RespAgg) (v : Val) (st' : RespAgg)
    (h : respStep st v = .ok st') :
    st' = respAddDelta (respLatch st v) v
    ∨ st' = respComplete (respLatch st v) v
    ∨ st' = respLatch st v := by
  unfold respStep at h
  dsimp only at h
  split at h
  · exact .inl (Except.ok.inj h).symm
  · split at h
    · exact .inr (.inl (Except.ok.inj h).symm)
    · split at h
      · exact Except.noConfusion h
      · split at h
        · exact .inl (Except.ok.inj h).symm
        · exact .inr (.inr (Except.ok.inj h).symm)

theorem respStep_model (st : RespAgg) (v : Val) (st' : RespAgg)
    (hstep : respStep st v = .ok st')
    (h : ((v.get "response").get "model").isNone = true) :
    st'.model_id = st.model_id := by
  rcases respStep_ok_cases st v st' hstep with rfl | rfl | rfl
  · rw [(respAddDelta_meta _ _).1, respLatch_model st v h]
  · rw [(respComplete_meta _ _).1, respLatch_model st v h]
  · exact respLatch_model st v h

theorem respStep_id (st : RespAgg) (v : Val) (st' : RespAgg)
    (hstep : respStep st v = .ok st')
    (h : ((v.get "response").get "id").isNone = true) :
    st'.response_id = st.response_id := by
  rcases respStep_ok_cases st v st' hstep with rfl | rfl | rfl
  · rw [(respAddDelta_meta _ _).2.1, respLatch_id st v h]
  · rw [(respComplete_meta _ _).2.1, respLatch_id st v h]
  · exact respLatch_id st v h

theorem respStep_created (st : RespAgg) (v : Val) (st' : RespAgg)
    (hstep : respStep st v = .ok st')
    (h : ((v.get "response").get "created_at").isNone = true) :
    st'.created_ts = st.created_ts := by
  rcases respStep_ok_cases st v st' hstep with rfl | rfl | rfl
  · rw [(respAddDelta_meta _ _).2.2, respLatch_created st v h]
  · rw [(respComplete_meta _ _).2.2, respLatch_created st v h]
  · exact respLatch_created st v h

/-- Generic monotone-latch preservation for the typed-event run. -/
theorem respRun_preserve (p : RespAgg → Val) (P : Val → Bool)
    (hstep : ∀ st v st', respStep st v = .ok st' → P v = true → p st' = p st) :
    ∀ (ls : List Line) (st st' : RespAgg), framesAll P ls = true →
      respRun st ls = .ok st' → p st' = p st := by
  intro ls
  induction ls with
  | nil =>
    intro st st' _ h
    cases h
    rfl
  | cons l ls ih =>
    intro st st' hall hrun
    cases l with
    | blank => exact ih st st' hall hrun
    | event n => exact ih st st' hall hrun
    | other s => exact ih st st' hall hrun
    | data pld =>
      cases pld with
      | done =>
        cases hrun
        rfl
      | malformed r => exact ih st st' hall hrun
      | json v =>
        have hall' : P v = true ∧ framesAll P ls = true := by
          simpa [framesAll, Bool.and_eq_true] using hall
        have hrun' : (match respStep st v with
            | .ok s1 => respRun s1 ls
            | .error e => Except.error e) = Except.ok st' := hrun
        cases hstepv : respStep st v with
        | ok s1 =>
          rw [hstepv] at hrun'
          rw [ih s1 st' hall'.2 hrun', hstep st v s1 hstepv hall'.1]
        | error e =>
          rw [hstepv] at hrun'
          cases hrun'

/-- C3: in both dialects, a frame carrying null for (or lacking) a metadata
field never changes the stored value of that field — whatever was latched
before, in particular any previously-set non-null value, persists into the
frozen result's metadata block. -/
theorem c3_metadata_latch :
    (∀ (st : ChatAgg) (ls : List Line),
        framesAll (fun v => (v.get "model").isNone) ls = true →
          ((chatResult (chatRun st ls)).get "metadata").get "model" = st.model_id)
    ∧ (∀ (st : ChatAgg) (ls : List Line),
        framesAll (fun v => (v.get "id").isNone) ls = true →
          ((chatResult (chatRun st ls)).get "metadata").get "id" = st.completion_id)
    ∧ (∀ (st : ChatAgg) (ls : List Line),
        framesAll (fun v => (v.get "created").isNone) ls = true →
          ((chatResult (chatRun st ls)).get "metadata").get "created" = st.created_ts)
    ∧ (∀ (st st' : RespAgg) (ls : List Line),
        framesAll (fun v => ((v.get "response").get "model").isNone) ls = true →
          respRun st ls = .ok st' →
          ((respResult st').get "metadata").get "model" = st.model_id)
    ∧ (∀ (st st' : RespAgg) (ls : List Line),
        framesAll (fun v => ((v.get "response").get "id").isNone) ls = true →
          respRun st ls = .ok st' →
          ((respResult st').get "metadata").get "id" = st.response_id)
    ∧ (∀ (st st' : RespAgg) (ls : List Line),
        framesAll (fun v => ((v.get "response").get "created_at").isNone) ls = true →
          respRun st ls = .ok st' →
          ((respResult st').get "metadata").get "created" = st.created_ts) := by
  refine ⟨?_, ?_, ?_, ?_, ?_, ?_⟩
  · intro st ls h
    show (chatRun st ls).model_id = st.model_id
    refine chatRun_preserve (fun a => a.model_id) _ ?_ ls st h
    intro s v hv
    show (chatStep s v).model_id = s.model_id
    rw [chatStep_model, (Val.isNone_iff _).mp hv, pyOr_vnull]
  · intro st ls h
    show (chatRun st ls).completion_id = st.completion_id
    refine chatRun_preserve (fun a => a.completion_id) _ ?_ ls st h
    intro s v hv
    show (chatStep s v).completion_id = s.completion_id
    rw [chatStep_id, (Val.isNone_iff _).mp hv, pyOr_vnull]
  · intro st ls h
    show (chatRun st ls).created_ts = st.created_ts
    refine chatRun_preserve (fun a => a.created_ts) _ ?_ ls st h
    intro s v hv
    show (chatStep s v).created_ts = s.created_ts
    rw [chatStep_created, (Val.isNone_iff _).mp hv, pyOr_vnull]
  · intro st st' ls h hrun
    show st'.model_id = st.model_id
    exact respRun_preserve (fun a => a.model_id) _
      (fun s v s' hs hv => respStep_model s v s' hs hv) ls st st' h hrun
  · intro st st' ls h hrun
    show st'.response_id = st.response_id
    exact respRun_preserve (fun a => a.response_id) _
      (fun s v s' hs hv => respStep_id s v s' hs hv) ls st st' h hrun
  · intro st st' ls h hrun
    show st'.created_ts = st.created_ts
    exact respRun_preserve (fun a => a.created_ts) _
      (fun s v s' hs hv => respStep_created s v s' hs hv) ls st st' h hrun

/-- Witness for C3 at concrete inputs: a chat state with `model = "m"`
latched keeps it across a frame carrying `model: null` and a frame lacking
the field entirely, and a responses state with `model = "m2"` latched keeps
it across a metadata frame without a model value. -/
theorem c3_metadata_latch_witness :
    ((chatResult (chatRun ⟨"t", .vnull, .vstr "m", .vstr "i", .vint 5⟩
        [Line.data (.json (.vobj [("model", .vnull)])),
         Line.data (.json (.vobj []))])).get "metadata").get "model" = .vstr "m"
    ∧ ((respResult ⟨"", .vnull, .vstr "m2", .vstr "r", .vnull, .vnull⟩).get
        "metadata").get "model" = .vstr "m2" := by
  refine ⟨?_, ?_⟩
  · exact c3_metadata_latch.1 ⟨"t", .vnull, .vstr "m", .vstr "i", .vint 5⟩
      [Line.data (.json (.vobj [("model", .vnull)])), Line.data (.json (.vobj []))]
      (by decide)
  · exact c3_metadata_latch.2.2.2.1 ⟨"", .vnull, .vstr "m2", .vstr "r", .vnull, .vnull⟩
      ⟨"", .vnull, .vstr "m2", .vstr "r", .vnull, .vnull⟩
      [Line.data (.json (.vobj [("response", .vobj [("error", .vnull)])]))]
      (by decide) rfl

/-- C4 counterexample: a chat-delta stream carrying `model = "model-a"` in an
earlier frame and `model = "model-b"` in a later frame aggregates to
metadata `model = "model-b"` — the value from the *later* frame — so the
claimed first-non-null-wins latch does not hold; the source latches with
`chunk.get('model') or model_id`, which lets every truthy value replace the
stored one. -/
theorem c4_counterexample :
    ((chatAggregate [Line.data (.json (.vobj [("model", .vstr "model-a")])),
        Line.data (.json (.vobj [("model", .vstr "model-b")])),
        doneLine]).get "metadata").get "model" = .vstr "model-b"
    ∧ Val.vstr "model-b" ≠ Val.vstr "model-a" := by
  refine ⟨rfl, ?_⟩
  intro h
  exact absurd (Val.vstr.inj h) (by decide)

theorem chatStep_model_truthy (st : ChatAgg) (chunk : Val)
    (h : (chunk.get "model").truthy = true) :
    (chatStep st chunk).model_id = chunk.get "model" := by
  rw [chatStep_model]
  simp [pyOr, h]

theorem chatStep_id_truthy (st : ChatAgg) (chunk : Val)
    (h : (chunk.get "id").truthy = true) :
    (chatStep st chunk).completion_id = chunk.get "id" := by
  rw [chatStep_id]
  simp [pyOr, h]

theorem chatStep_created_truthy (st : ChatAgg) (chunk : Val)
    (h : (chunk.get "created").truthy = true) :
    (chatStep st chunk).created_ts = chunk.get "created" := by
  rw [chatStep_created]
  simp [pyOr, h]

/-- C4 (amended): in the chat-delta dialect the metadata fields `model`,
`id`, `created` latch with last-non-null-wins semantics: a frame carrying a
truthy value for the field replaces the stored value, while a frame carrying
null (or lacking the field) leaves it unchanged. -/
theorem c4_amended_last_non_null_wins (st : ChatAgg) (chunk : Val) :
    ((chunk.get "model").truthy = true →
        (chatStep st chunk).model_id = chunk.get "model")
    ∧ ((chunk.get "model").isNone = true →
        (chatStep st chunk).model_id = st.model_id)
    ∧ ((chunk.get "id").truthy = true →
        (chatStep st chunk).completion_id = chunk.get "id")
    ∧ ((chunk.get "id").isNone = true →
        (chatStep st chunk).completion_id = st.completion_id)
    ∧ ((chunk.get "created").truthy = true →
        (chatStep st chunk).created_ts = chunk.get "created")
    ∧ ((chunk.get "created").isNone = true →
        (chatStep st chunk).created_ts = st.created_ts) := by
  refine ⟨fun h => chatStep_model_truthy st chunk h, fun h => ?_,
    fun h => chatStep_id_truthy st chunk h, fun h => ?_,
    fun h => chatStep_created_truthy st chunk h, fun h => ?_⟩
  · rw [chatStep_model, (Val.isNone_iff _).mp h, pyOr_vnull]
  · rw [chatStep_id, (Val.isNone_iff _).mp h, pyOr_vnull]
  · rw [chatStep_created, (Val.isNone_iff _).mp h, pyOr_vnull]

/-- Witness for C4 (amended) at a concrete state and frame: a truthy `model`
replaces the previously stored value, while a null `id` leaves the stored
value in place. -/
theorem c4_amended_last_non_null_wins_witness :
    (chatStep ⟨"", .vnull, .vstr "old-model", .vstr "old-id", .vint 1⟩
        (.vobj [("model", .vstr "new-model"), ("id", .vnull)])).model_id = .vstr "new-model"
    ∧ (chatStep ⟨"", .vnull, .vstr "old-model", .vstr "old-id", .vint 1⟩
        (.vobj [("model", .vstr "new-model"), ("id", .vnull)])).completion_id = .vstr "old-id" := by
  refine ⟨?_, ?_⟩
  · exact (c4_amended_last_non_null_wins
      ⟨"", .vnull, .vstr "old-model", .vstr "old-id", .vint 1⟩
      (.vobj [("model", .vstr "new-model"), ("id", .vnull)])).1 (by decide)
  · exact (c4_amended_last_non_null_wins
      ⟨"", .vnull, .vstr "old-model", .vstr "old-id", .vint 1⟩
      (.vobj [("model", .vstr "new-model"), ("id", .vnull)])).2.2.2.1 (by decide)

/-- A line that lets the typed-event loop continue: anything except the
`[DONE]` sentinel and a parsed frame of type `response.failed`. -/
def lineContinues : Line → Bool
  | .data .done => false
  | .data (.json v) => !(v.getD "type" (.vstr "")).eqStr "response.failed"
  | _ => true

theorem respStep_isOk (st : RespAgg) (v : Val)
    (h : (v.getD "type" (.vstr "")).eqStr "response.failed" = false) :
    ∃ st', respStep st v = .ok st' := by
  unfold respStep
  dsimp only
  split
  next => exact ⟨_, rfl⟩
  next =>
    split
    next => exact ⟨_, rfl⟩
    next =>
      split
      next hfail => exact absurd hfail (by simp [h])
      next =>
        split
        next => exact ⟨_, rfl⟩
        next => exact ⟨_, rfl⟩

theorem respRun_fail_short_circuit (pre : List Line) :
    ∀ (rest : List Line) (code msg : String) (st : RespAgg),
      pre.all lineContinues = true →
      respRun st (pre ++ failedLine code msg :: rest)
        = .error ("响应失败: " ++ code ++ " - " ++ msg) := by
  induction pre with
  | nil =>
    intro rest code msg st _
    rfl
  | cons l pre ih =>
    intro rest code msg st h
    have hl : lineContinues l = true ∧ pre.all lineContinues = true := by
      simpa [List.all_cons, Bool.and_eq_true] using h
    cases l with
    | blank => exact ih rest code msg st hl.2
    | event n => exact ih rest code msg st hl.2
    | other s => exact ih rest code msg st hl.2
    | data pld =>
      cases pld with
      | done => simp [lineContinues] at hl
      | malformed r => exact ih rest code msg st hl.2
      | json v =>
        have hv : (v.getD "type" (.vstr "")).eqStr "response.failed" = false := by
          have := hl.1
          simpa [lineContinues, Bool.not_eq_true'] using this
        obtain ⟨st', hst⟩ := respStep_isOk st v hv
        show (match respStep st v with
              | .ok s1 => respRun s1 (pre ++ failedLine code msg :: rest)
              | .error e => .error e) = _
        rw [hst]
        exact ih rest code msg st' hl.2

/-- C6: when a `response.failed` event arrives before any delta frame (more
generally, after any prefix of lines that neither terminates nor fails the
stream), the invocation produces the failure envelope carrying the upstream
error code and message — with `success: false`, no `data`/content at all,
and the same envelope regardless of the lines after the failure event, which
are never consumed. -/
theorem c6_failed_event (pre rest : List Line) (code msg : String)
    (h : pre.all lineContinues = true) :
    responsesOutcome (pre ++ failedLine code msg :: rest)
        = mkFailureEnvelope ("响应失败: " ++ code ++ " - " ++ msg)
    ∧ (responsesOutcome (pre ++ failedLine code msg :: rest)).get "success" = .vbool false
    ∧ (responsesOutcome (pre ++ failedLine code msg :: rest)).get "data" = .vnull := by
  unfold responsesOutcome
  rw [respRun_fail_short_circuit pre rest code msg respInit h]
  exact ⟨rfl, rfl, rfl⟩

theorem lookup_truthyEntry (k k' : String) (h : (k == k') = false) (v : Val)
    (rest : List (String × Val)) :
    List.lookup k (truthyEntry k' v ++ rest) = List.lookup k rest := by
  unfold truthyEntry
  split <;> simp [List.lookup, h]

theorem lookup_optEntry (k k' : String) (h : (k == k') = false) (v : Val)
    (rest : List (String × Val)) :
    List.lookup k (optEntry k' v ++ rest) = List.lookup k rest := by
  unfold optEntry
  split <;> simp [List.lookup, h]

/-- C7: with model `sora-2`, a caller-supplied (non-blank, non-sentinel)
`seconds` outside the supported set is silently replaced by `"10"` in the
outbound request body, and a `size` outside the supported set is silently
replaced by `"1280x720"`; the builder is total, so no error is raised for
either substitution and the request is still sent. -/
theorem c7_sora2_silent_coercion (tp : Params) (s z : String)
    (hm : List.lookup "model" tp = some (.vstr "sora-2"))
    (hs : List.lookup "seconds" tp = some (.vstr s))
    (hs0 : s ≠ "") (hs1 : s ≠ "variable") (hs2 : s ≠ "10") (hs3 : s ≠ "15")
    (hz : List.lookup "size" tp = some (.vstr z))
    (hz0 : z ≠ "") (hz1 : z ≠ "variable") (hz2 : z ≠ "720x1280") (hz3 : z ≠ "1280x720") :
    (soraRequestData tp).get "seconds" = .vstr "10"
    ∧ (soraRequestData tp).get "size" = .vstr "1280x720" := by
  have hbs0 : (s == "") = false := beq_eq_false_iff_ne.mpr hs0
  have hbs1 : (s == "variable") = false := beq_eq_false_iff_ne.mpr hs1
  have hbs2 : (s == "10") = false := beq_eq_false_iff_ne.mpr hs2
  have hbs3 : (s == "15") = false := beq_eq_false_iff_ne.mpr hs3
  have hbz0 : (z == "") = false := beq_eq_false_iff_ne.mpr hz0
  have hbz1 : (z == "variable") = false := beq_eq_false_iff_ne.mpr hz1
  have hbz2 : (z == "720x1280") = false := beq_eq_false_iff_ne.mpr hz2
  have hbz3 : (z == "1280x720") = false := beq_eq_false_iff_ne.mpr hz3
  unfold soraRequestData
  rw [show tpGetD tp "model" (.vstr "sora-2") = .vstr "sora-2" by
        simp [tpGetD, hm],
      show tpGetD tp "seconds" (.vstr "10") = .vstr s by
        simp [tpGetD, hs],
      show tpGet tp "size" = .vstr z by
        simp [tpGet, hz]]
  simp only [processParam, Val.eqStr, Val.truthy, Val.inStrList, List.contains,
    hbs0, hbs1, hbs2, hbs3, hbz0, hbz1, hbz2, hbz3]
  simp [Val.get, List.lookup, hs0, hs2, hs3, hz0, hz2, hz3,
    lookup_truthyEntry "seconds" "input_reference" (by decide),
    lookup_truthyEntry "size" "input_reference" (by decide)]

/-- Witness for C7 at a concrete parameter map: `seconds = "20"` becomes
`"10"` and `size = "100x100"` becomes `"1280x720"`. -/
theorem c7_sora2_silent_coercion_witness :
    (soraRequestData [("model", .vstr "sora-2"), ("seconds", .vstr "20"),
        ("size", .vstr "100x100")]).get "seconds" = .vstr "10"
    ∧ (soraRequestData [("model", .vstr "sora-2"), ("seconds", .vstr "20"),
        ("size", .vstr "100x100")]).get "size" = .vstr "1280x720" :=
  c7_sora2_silent_coercion
    [("model", .vstr "sora-2"), ("seconds", .vstr "20"), ("size", .vstr "100x100")]
    "20" "100x100" rfl rfl (by decide) (by decide) (by decide) (by decide)
    rfl (by decide) (by decide) (by decide) (by decide)

/-- Witness for C6: a created-event prefix, then an upstream failure with
code `server_error` and message `boom`, followed by a delta line that is
never consumed. -/
theorem c6_failed_event_witness :
    responsesOutcome ([Line.event "response.created",
        Line.data (.json (.vobj [("type", .vstr "response.created"),
          ("response", .vobj [("model", .vstr "gpt-4o")])]))]
        ++ failedLine "server_error" "boom"
          :: [Line.data (.json (.vobj [("type", .vstr "response.output_text.delta"),
              ("delta", .vstr "late")]))])
      = mkFailureEnvelope "响应失败: server_error - boom" :=
  (c6_failed_event _ _ "server_error" "boom" (by decide)).1

/-- C8 (code evaluated at the failing input): a chat frame whose first
choice carries only `message: {content: "s"}` and no `delta` field
contributes nothing — the aggregated content is `""`, not `"s"` — because
`delta = c0.get('delta') or {}` turns an absent delta into an (empty) dict,
so the `message.content` fallback is reachable only when `delta` is a
truthy non-dict (third conjunct), a shape no chat stream produces. -/
theorem c8_message_fallback_unreachable :
    ((chatAggregate [Line.data (.json (.vobj [("choices",
        .vlist [.vobj [("message", .vobj [("content", .vstr "s")])]])])),
      doneLine]).get "data").get "content" = .vstr ""
    ∧ Val.vstr "" ≠ Val.vstr "s"
    ∧ ((chatAggregate [Line.data (.json (.vobj [("choices",
        .vlist [.vobj [("delta", .vstr "x"),
          ("message", .vobj [("content", .vstr "s")])]])])),
      doneLine]).get "data").get "content" = .vstr "s" := by
  refine ⟨rfl, ?_, rfl⟩
  intro h
  exact absurd (Val.vstr.inj h) (by decide)

theorem conversationMessages_drop (pre post : List Val) (m : Val)
    (h : (m.get "content").truthy = false) :
    conversationMessages (pre ++ m :: post) = conversationMessages (pre ++ post) := by
  induction pre with
  | nil => simp [conversationMessages, h]
  | cons p pre ih => simp [conversationMessages, ih]

theorem conversationMessages_all_falsy (msgs : List Val)
    (h : ∀ m ∈ msgs, (m.get "content").truthy = false) :
    conversationMessages msgs = [] := by
  induction msgs with
  | nil => rfl
  | cons m ms ih =>
    have hm := h m (by simp)
    have hms := ih (fun x hx => h x (by simp [hx]))
    simp [conversationMessages, hm, hms]

/-- C10: a message with falsy content (empty string, null, 0) is silently
dropped from the outbound conversation, and when the messages list is
non-empty but every content is falsy and no prompt is supplied, no
missing-parameter error is raised — the body is still built, with an empty
`messages` array. -/
theorem c10_falsy_messages_dropped :
    (∀ (pre post : List Val) (m : Val), (m.get "content").truthy = false →
        conversationMessages (pre ++ m :: post) = conversationMessages (pre ++ post))
    ∧ (∀ (tp : Params) (m0 : Val) (ms : List Val),
        tpGetD tp "messages" (.vlist []) = .vlist (m0 :: ms) →
        (∀ m ∈ m0 :: ms, (m.get "content").truthy = false) →
        (tpGet tp "prompt").truthy = false →
        ∃ body, chatBuildBody tp = .ok body ∧ body.get "messages" = .vlist []) := by
  refine ⟨fun pre post m h => conversationMessages_drop pre post m h, ?_⟩
  intro tp m0 ms hmsg hfalsy hprompt
  unfold chatBuildBody
  rw [hmsg]
  rw [show chatConversation (.vlist (m0 :: ms)) (tpGet tp "prompt") = .ok [] from by
    show Except.ok (conversationMessages (m0 :: ms)) = .ok []
    exact congrArg Except.ok (conversationMessages_all_falsy _ hfalsy)]
  exact ⟨_, rfl, by simp [chatBodyCore, Val.get, List.lookup]⟩

/-- Witness for C10: a falsy-content message after a real one drops out of
the conversation, and a messages list whose only member has empty content
yields a successfully built body with `messages: []`. -/
theorem c10_falsy_messages_dropped_witness :
    conversationMessages [.vobj [("content", .vstr "hi")], .vobj [("content", .vstr "")]]
      = conversationMessages [.vobj [("content", .vstr "hi")]]
    ∧ ∃ body, chatBuildBody [("messages", .vlist [.vobj [("content", .vstr "")]])] = .ok body
        ∧ body.get "messages" = .vlist [] := by
  refine ⟨?_, ?_⟩
  · exact c10_falsy_messages_dropped.1 [.vobj [("content", .vstr "hi")]] []
      (.vobj [("content", .vstr "")]) (by decide)
  · exact c10_falsy_messages_dropped.2 [("messages", .vlist [.vobj [("content", .vstr "")]])]
      (.vobj [("content", .vstr "")]) [] rfl (by decide) (by decide)

theorem lookup_eraseParam (tp : Params) (k k' : String) :
    List.lookup k' (eraseParam tp k) = if (k' == k) then none else List.lookup k' tp := by
  induction tp with
  | nil => simp [eraseParam]
  | cons p tp ih =>
    obtain ⟨a, b⟩ := p
    by_cases hak : a = k
    · subst hak
      by_cases hk : k' = a
      · subst hk
        simp [eraseParam, List.lookup, ih]
      · have hbk : (k' == a) = false := beq_eq_false_iff_ne.mpr hk
        simp [eraseParam, List.lookup, ih, hk, hbk]
    · by_cases hk : k' = a
      · subst hk
        have hne : ¬(k' = k) := fun hh => hak hh
        simp [eraseParam, List.lookup, ih, hak, hne]
      · have hbk : (k' == a) = false := beq_eq_false_iff_ne.mpr hk
        simp [eraseParam, List.lookup, ih, hak, hk, hbk]

/-- C2 counterexample: for the sora video tool, passing the sentinel string
for the optional `seconds` parameter puts `seconds: null` into the outbound
request body, while omitting the parameter entirely puts the default
`seconds: "10"` there — the two bodies differ, all other parameters held
equal. -/
theorem c2_counterexample :
    soraRequestData [("seconds", .vstr "variable")] ≠ soraRequestData [] := by
  intro h
  have h2 : Val.vnull = Val.vstr "10" :=
    congrArg (fun v => Val.get v "seconds") h
  exact Val.noConfusion h2

set_option maxHeartbeats 4000000 in
/-- C2 (amended): for every optional parameter that passes a sentinel
filter and whose body inclusion is guarded on the normalized value —
the thirteen chat/completions optionals, sora's six guarded optionals,
klingus image2video's five guarded optionals and suno submit's four
`_norm` optionals — passing the sentinel `'variable'` produces exactly the
same request body as omitting the parameter, all other parameters held
equal; and the responses tool's `get_param` normalizer maps the sentinel
and the absent parameter to the same `None`, leaving every other parameter
read unchanged.  (The equivalence fails for optional parameters that have a
non-null default and are placed into the body unconditionally, such as
sora's `seconds`.) -/
theorem c2_amended_sentinel :
    (∀ (tp : Params) (k : String), k ∈ chatOptionalKeys →
        chatBuildBody (setParam tp k (.vstr "variable"))
          = chatBuildBody (eraseParam tp k))
    ∧ (∀ (tp : Params) (k : String), k ∈ soraGuardedKeys →
        soraRequestData (setParam tp k (.vstr "variable"))
          = soraRequestData (eraseParam tp k))
    ∧ (∀ (tp : Params) (k : String), k ∈ klingusOptionalKeys →
        klingusRequestData (setParam tp k (.vstr "variable"))
          = klingusRequestData (eraseParam tp k))
    ∧ (∀ (tp : Params) (k : String), k ∈ sunoOptionalKeys →
        sunoSubmitBody (setParam tp k (.vstr "variable"))
          = sunoSubmitBody (eraseParam tp k))
    ∧ (∀ (tp : Params) (k : String),
        respGetParam (setParam tp k (.vstr "variable")) k = .vnull
        ∧ respGetParam (eraseParam tp k) k = .vnull
        ∧ ∀ (q : String), (q == k) = false →
            tpGet (setParam tp k (.vstr "variable")) q = tpGet (eraseParam tp k) q) := by
  refine ⟨?_, ?_, ?_, ?_, ?_⟩
  · intro tp k hk
    simp only [chatOptionalKeys] at hk
    fin_cases hk <;>
      simp [chatBuildBody, chatOptVal, tpGetD, tpGet, setParam, List.lookup,
        lookup_eraseParam, Val.eqStr]
  · intro tp k hk
    simp only [soraGuardedKeys] at hk
    fin_cases hk <;>
      simp [soraRequestData, processParam, tpGetD, tpGet, setParam, List.lookup,
        lookup_eraseParam, Val.eqStr]
  · intro tp k hk
    simp only [klingusOptionalKeys] at hk
    fin_cases hk <;>
      simp [klingusRequestData, processParam, tpGetD, tpGet, setParam, List.lookup,
        lookup_eraseParam, Val.eqStr]
  · intro tp k hk
    simp only [sunoOptionalKeys] at hk
    fin_cases hk <;>
      simp [sunoSubmitBody, sunoNorm, tpGetD, tpGet, setParam, List.lookup,
        lookup_eraseParam, Val.eqStr, Val.isNone]
  · intro tp k
    refine ⟨?_, ?_, fun q hq => ?_⟩
    · simp [respGetParam, tpGet, setParam, List.lookup, Val.eqStr, Val.isNone]
    · simp [respGetParam, tpGet, lookup_eraseParam, Val.eqStr, Val.isNone]
    · simp [tpGet, setParam, List.lookup, lookup_eraseParam, hq]

/-- Witness for C2 (amended): one concrete sentinel-versus-omitted pair per
covered builder, other parameters held equal, plus the responses normalizer
at a concrete key. -/
theorem c2_amended_sentinel_witness :
    chatBuildBody (setParam [("prompt", .vstr "hi")] "temperature" (.vstr "variable"))
      = chatBuildBody (eraseParam [("prompt", .vstr "hi")] "temperature")
    ∧ soraRequestData (setParam [("prompt", .vstr "p")] "size" (.vstr "variable"))
      = soraRequestData (eraseParam [("prompt", .vstr "p")] "size")
    ∧ klingusRequestData (setParam [("prompt", .vstr "p")] "negative_prompt" (.vstr "variable"))
      = klingusRequestData (eraseParam [("prompt", .vstr "p")] "negative_prompt")
    ∧ sunoSubmitBody (setParam [("apiKey", .vstr "k"), ("prompt", .vstr "p"),
          ("mv", .vstr "v"), ("title", .vstr "t")] "tags" (.vstr "variable"))
      = sunoSubmitBody (eraseParam [("apiKey", .vstr "k"), ("prompt", .vstr "p"),
          ("mv", .vstr "v"), ("title", .vstr "t")] "tags")
    ∧ respGetParam (setParam [] "instructions" (.vstr "variable")) "instructions" = .vnull :=
  ⟨c2_amended_sentinel.1 [("prompt", .vstr "hi")] "temperature" (by decide),
   c2_amended_sentinel.2.1 [("prompt", .vstr "p")] "size" (by decide),
   c2_amended_sentinel.2.2.1 [("prompt", .vstr "p")] "negative_prompt" (by decide),
   c2_amended_sentinel.2.2.2.1 [("apiKey", .vstr "k"), ("prompt", .vstr "p"),
      ("mv", .vstr "v"), ("title", .vstr "t")] "tags" (by decide),
   (c2_amended_sentinel.2.2.2.2 [] "instructions").1⟩

/-- A parsed generateContent response carrying exactly one inline image part
whose base64 data `"a"` cannot be decoded (its length is not a multiple of
four, `binascii.Error` in Python). -/
def bananaOneBadImage : Val :=
  .vobj [("candidates", .vlist [.vobj [("content", .vobj [("parts", .vlist
    [.vobj [("inlineData", .vobj [("data", .vstr "a"),
      ("mimeType", .vstr "image/png")])]])])]])]

/-- C9 counterexample: a response carrying exactly one extracted image whose
inline data fails base64 decoding produces zero output messages — the
per-image failure is swallowed (`except ... continue`) and no summary
envelope follows the emission loop — refuting "never zero messages". -/
theorem c9_counterexample :
    bananaMessages bananaOneBadImage = []
    ∧ extractImages bananaOneBadImage ≠ [] := by
  refine ⟨rfl, ?_⟩
  intro h
  exact List.noConfusion
    (show [(Val.vstr "a", Val.vstr "image/png")] = ([] : List (Val × Val)) from h)

/-- A parsed generateContent response carrying exactly one inline image
part whose base64 data `"YQ=="` decodes (to the single byte 97). -/
def bananaOneGoodImage : Val :=
  .vobj [("candidates", .vlist [.vobj [("content", .vobj [("parts", .vlist
    [.vobj [("inlineData", .vobj [("data", .vstr "YQ=="),
      ("mimeType", .vstr "image/png")])]])])]])]

/-- C9 (amended): every invocation yields a bounded number of messages and,
with one exception, at least one.  The image tool: one failure envelope when
no image is extracted, otherwise at most one blob per extracted image with
no summary envelope — zero messages exactly when every extracted image fails
to decode, and at least one whenever some extracted image decodes; its
network/HTTP/parse failure paths each yield exactly one envelope.  The
chat/completions and responses tools yield exactly one envelope per consumed
stream, and the six non-streaming tools yield exactly one envelope for every
HTTP outcome. -/
theorem c9_amended_message_bounds :
    (∀ result : Val,
        (extractImages result = [] →
          bananaMessages result = [.json (bananaFailureEnvelope "未能从响应中提取图片数据")])
        ∧ (bananaMessages result).length ≤ max 1 (extractImages result).length
        ∧ (extractImages result ≠ [] →
            (∀ img ∈ extractImages result, bananaEmitImage img = none) →
            bananaMessages result = [])
        ∧ ∀ img ∈ extractImages result, bananaEmitImage img ≠ none →
            bananaMessages result ≠ [])
    ∧ (∀ m : String, (bananaInvokeMessages (.networkError m)).length = 1)
    ∧ (∀ (status : Int) (reason text : String) (body : Except String Val),
        (bananaInvokeMessages (.reply false status reason text body)).length = 1)
    ∧ (∀ (status : Int) (reason text e : String),
        (bananaInvokeMessages (.reply true status reason text (.error e))).length = 1)
    ∧ (∀ (status : Int) (reason text : String) (result : Val),
        bananaInvokeMessages (.reply true status reason text (.ok result))
          = bananaMessages result)
    ∧ (∀ (tp : Params) (lines : List Line), (chatInvokeMessages tp lines).length = 1)
    ∧ (∀ lines : List Line, (responsesInvokeMessages lines).length = 1)
    ∧ (∀ (tp : Params) (h : HttpReply), (soraInvokeMessages tp h).length = 1)
    ∧ (∀ (tp : Params) (h : HttpReply), (soraQueryMessages tp h).length = 1)
    ∧ (∀ (tp : Params) (h : HttpReply), (klingusInvokeMessages tp h).length = 1)
    ∧ (∀ (tp : Params) (h : HttpReply), (klingusQueryMessages tp h).length = 1)
    ∧ (∀ (tp : Params) (h : HttpReply), (sunoSubmitMessages tp h).length = 1)
    ∧ (∀ (tp : Params) (h : HttpReply), (sunoFetchMessages tp h).length = 1) := by
  refine ⟨fun result => ⟨fun h => ?_, ?_, fun hne hall => ?_, fun img hmem hne => ?_⟩,
    fun m => rfl, fun status reason text body => rfl,
    fun status reason text e => rfl, fun status reason text result => rfl,
    fun tp lines => ?_, fun lines => rfl,
    fun tp h => ?_, fun tp h => ?_, fun tp h => ?_, fun tp h => ?_,
    fun tp h => ?_, fun tp h => ?_⟩
  · simp [bananaMessages, h]
  · unfold bananaMessages
    dsimp only
    split
    next himg => simp
    next himg =>
      exact le_trans (List.length_filterMap_le _ _) (Nat.le_max_right 1 _)
  · unfold bananaMessages
    dsimp only
    split
    next hemp => exact absurd (List.isEmpty_iff.mp hemp) hne
    next hemp => exact List.filterMap_eq_nil_iff.mpr hall
  · unfold bananaMessages
    dsimp only
    split
    next hemp => exact fun heq => List.noConfusion heq
    next hemp => exact fun heq => hne (List.filterMap_eq_nil_iff.mp heq img hmem)
  · unfold chatInvokeMessages
    cases chatBuildBody tp <;> rfl
  · unfold soraInvokeMessages
    cases h with
    | networkError m => rfl
    | reply ok status reason text body => cases ok <;> cases body <;> rfl
  · unfold soraQueryMessages
    cases h with
    | networkError m => rfl
    | reply ok status reason text body => cases ok <;> cases body <;> rfl
  · unfold klingusInvokeMessages
    cases h with
    | networkError m => rfl
    | reply ok status reason text body => cases ok <;> cases body <;> rfl
  · unfold klingusQueryMessages
    cases h with
    | networkError m => rfl
    | reply ok status reason text body => cases ok <;> cases body <;> rfl
  · unfold sunoSubmitMessages
    cases sunoSubmitBody tp with
    | error e => rfl
    | ok b =>
      cases h with
      | networkError m => rfl
      | reply ok status reason text body => cases ok <;> cases body <;> rfl
  · unfold sunoFetchMessages
    split
    · rfl
    · cases h with
      | networkError m => rfl
      | reply ok status reason text body => cases ok <;> cases body <;> rfl

/-- Witness for C9 (amended): the no-image response yields exactly the
failure envelope, the all-images-fail response yields zero messages, the
decodable-image response yields at least one, and two single-envelope tools
yield exactly one message at concrete inputs. -/
theorem c9_amended_message_bounds_witness :
    bananaMessages (.vobj []) = [.json (bananaFailureEnvelope "未能从响应中提取图片数据")]
    ∧ bananaMessages bananaOneBadImage = []
    ∧ bananaMessages bananaOneGoodImage ≠ []
    ∧ (chatInvokeMessages [("prompt", .vstr "hi")] [deltaLine "He", doneLine]).length = 1
    ∧ (soraInvokeMessages [] (.networkError "boom")).length = 1 :=
  ⟨(c9_amended_message_bounds.1 (.vobj [])).1 rfl,
   (c9_amended_message_bounds.1 bananaOneBadImage).2.2.1
     (fun hh => List.noConfusion
       (show [(Val.vstr "a", Val.vstr "image/png")] = ([] : List (Val × Val)) from hh))
     (by
       intro img hmem
       have himg : img = (Val.vstr "a", Val.vstr "image/png") :=
         List.mem_singleton.mp
           (show img ∈ [(Val.vstr "a", Val.vstr "image/png")] from hmem)
       rw [himg]
       rfl),
   (c9_amended_message_bounds.1 bananaOneGoodImage).2.2.2
     (Val.vstr "YQ==", Val.vstr "image/png") (List.Mem.head _)
     (fun hh => Option.noConfusion
       (show some (Msg.blob [97] (.vstr "image/png")) = none from hh)),
   c9_amended_message_bounds.2.2.2.2.2.1 [("prompt", .vstr "hi")] [deltaLine "He", doneLine],
   c9_amended_message_bounds.2.2.2.2.2.2.2.1 [] (.networkError "boom")⟩

end ModelLink
